import Mathlib

/-!
# Verification of the Landsat tiled-raster dataset

A shallow embedding of `torchgeo/datasets/landsat.py`: the catalog build
performed by `Landsat.__init__` (glob over `root/base_folder/**_{bands[0]}.TIF`,
date parsing from the filename, R-tree insertion) and the query path of
`Landsat.__getitem__` (bounds check, pixel-window computation, first-hit tile
selection, band-1 read, int32 cast).

Coordinates and timestamps are modelled as integers (`Int`); the external
collaborators (the `rtree` spatial index, the `rasterio` raster reader, the
`datetime` parser and the `BoundingBox`/`GeoDataset` helpers that live outside
the file under analysis) are modelled from their contracts as stated in the
specification, and are marked as such in their doc comments.
-/

deriving instance DecidableEq for Except

namespace Landsat

/-- A query/tile bounding box, mirroring torchgeo's `BoundingBox` named tuple:
six scalars in the order `(minx, maxx, miny, maxy, mint, maxt)`. -/
structure BoundingBox where
  minx : Int
  maxx : Int
  miny : Int
  maxy : Int
  mint : Int
  maxt : Int
  deriving DecidableEq, Repr

/-- Modelled from the spec: `BoundingBox.intersects` lives in `utils.py`, which
is not part of the analysed source.  Two boxes intersect iff all three axis
intervals overlap as closed intervals (touching counts as intersecting). -/
def BoundingBox.intersects (a b : BoundingBox) : Bool :=
  a.minx ≤ b.maxx && b.minx ≤ a.maxx &&
  a.miny ≤ b.maxy && b.miny ≤ a.maxy &&
  a.mint ≤ b.maxt && b.mint ≤ a.maxt

/-- The bounding-box invariant from the spec: `minx ≤ maxx`, `miny ≤ maxy`,
`mint ≤ maxt`. -/
def BoundingBox.valid (a : BoundingBox) : Bool :=
  a.minx ≤ a.maxx && a.miny ≤ a.maxy && a.mint ≤ a.maxt

/-- One record of the spatial-temporal index: the coordinates inserted into the
R-tree (`(minx, maxx, miny, maxy, timestamp, timestamp)`, interleaved=False)
together with the object payload, the file path. -/
structure TileRecord where
  coords : BoundingBox
  path : String
  deriving DecidableEq, Repr

/-- Modelled from the spec: the R-tree (`rtree.index.Index`) is an external
collaborator.  `intersection(query, objects=True)` yields every stored record
whose box overlaps the query box on all three closed axis intervals, here in
insertion order; no duplicate suppression. -/
def intersectIndex (l : List TileRecord) (q : BoundingBox) : List TileRecord :=
  l.filter (fun r => r.coords.intersects q)

/-- Modelled from the spec: `GeoDataset.bounds` lives in `geo.py`, which is not
part of the analysed source.  The dataset-level bounds are the union (axis-wise
min/max) of all inserted tile boxes; an empty index yields the backing R-tree's
inverted sentinel box, which no valid query box intersects. -/
def datasetBounds : List TileRecord → BoundingBox
  | [] => ⟨2 ^ 62, -(2 ^ 62), 2 ^ 62, -(2 ^ 62), 2 ^ 62, -(2 ^ 62)⟩
  | r :: rs =>
    let b := datasetBounds rs
    if rs = [] then r.coords
    else
      ⟨min r.coords.minx b.minx, max r.coords.maxx b.maxx,
       min r.coords.miny b.miny, max r.coords.maxy b.maxy,
       min r.coords.mint b.mint, max r.coords.maxt b.maxt⟩

/-- One raster file on disk, as seen through the `RasterSource` contract:
a directory, a base filename, the spatial bounds reported on open (in
rasterio's `(minx, miny, maxx, maxy)` order), the per-band pixel grids, and
whether opening succeeds. -/
structure RasterFile where
  dir : String
  name : String
  bminx : Int
  bminy : Int
  bmaxx : Int
  bmaxy : Int
  bands : List (List (List Int))
  openable : Bool
  deriving DecidableEq, Repr

/-- The full path of a file, as produced by globbing `dir` + separator +
basename. -/
def RasterFile.path (f : RasterFile) : String :=
  f.dir ++ "/" ++ f.name

/-- Shell-style `*` matching over character lists, as performed by `fnmatch`
on the basename component of the glob pattern: `*` matches any (possibly
empty) run of characters — i.e. the rest of the pattern must match some
suffix of the text — and every other character matches itself. -/
def starMatch : List Char → List Char → Bool
  | [], s => s.isEmpty
  | c :: p, s =>
    if c = '*' then s.tails.any (fun b => starMatch p b)
    else
      match s with
      | [] => false
      | d :: s' => c = d && starMatch p s'

/-- Does the basename start with a dot?  `glob` treats such names as hidden
and never matches them with a pattern that does not itself start with a
dot. -/
def isHidden (name : String) : Bool :=
  match name.data with
  | '.' :: _ => true
  | _ => false

/-- Does a basename match the pattern `**_{band}.TIF`?  This is the basename
component of the glob in `Landsat.__init__`. -/
def nameMatches (band : String) (name : String) : Bool :=
  starMatch ("**_" ++ band ++ ".TIF").data name.data && !isHidden name

/-- The files produced by `glob.iglob(os.path.join(root, base_folder,
f"**_{band}.TIF"))` over a modelled directory tree `fs`: the files directly
under `root/base_folder` whose basename matches the pattern, in listing
order. -/
def globFiles (fs : List RasterFile) (root base_folder band : String) :
    List RasterFile :=
  fs.filter (fun f => f.dir = root ++ "/" ++ base_folder && nameMatches band f.name)

/-- Split a character list on a separator character, keeping empty pieces,
exactly as Python's `str.split(sep)` does on the basename:
`splitOnChar '_' "A_B".data = ["A".data, "B".data]` and an empty string
yields one empty piece. -/
def splitOnChar (sep : Char) : List Char → List (List Char)
  | [] => [[]]
  | c :: cs =>
    match splitOnChar sep cs with
    | [] => if c = sep then [[], [c]] else [[c]]
    | h :: t => if c = sep then [] :: h :: t else (c :: h) :: t

/-- Is every character a decimal digit? -/
def allDigits (l : List Char) : Bool :=
  l.all (fun c => c.isDigit)

/-- The natural number denoted by a list of decimal digits. -/
def natOfDigits (l : List Char) : Nat :=
  l.foldl (fun a c => a * 10 + (c.toNat - 48)) 0

/-- Gregorian leap-year test. -/
def isLeap (y : Nat) : Bool :=
  (y % 4 = 0 && !(y % 100 = 0)) || y % 400 = 0

/-- Number of days in a month of the proleptic Gregorian calendar. -/
def daysInMonth (y m : Nat) : Nat :=
  if m = 2 then (if isLeap y then 29 else 28)
  else if m = 4 || m = 6 || m = 9 || m = 11 then 30
  else 31

/-- Days from the Unix epoch (1970-01-01) to the given civil date, by the
standard days-from-civil computation. -/
def daysFromCivil (y m d : Nat) : Int :=
  let y' : Int := if m ≤ 2 then (y : Int) - 1 else (y : Int)
  let era : Int := y' / 400
  let yoe : Int := y' - era * 400
  let mp : Int := ((m : Int) + 9) % 12
  let doy : Int := (153 * mp + 2) / 5 + (d : Int) - 1
  let doe : Int := yoe * 365 + yoe / 4 - yoe / 100 + doy
  era * 146097 + doe - 719468

/-- Modelled from the spec: `datetime.strptime(token, "%Y%m%d").timestamp()`
uses the external `datetime` library.  The token must be exactly eight digits
forming a valid calendar date `YYYYMMDD` (year at least 1); the result is the
Unix timestamp of midnight of that date, in seconds.  A malformed token yields
`none` (strptime raises `ValueError`). -/
def parseYYYYMMDD (cs : List Char) : Option Int :=
  if cs.length = 8 ∧ allDigits cs then
    let y := natOfDigits (cs.take 4)
    let m := natOfDigits ((cs.drop 4).take 2)
    let d := natOfDigits (cs.drop 6)
    if 1 ≤ y ∧ 1 ≤ m ∧ m ≤ 12 ∧ 1 ≤ d ∧ d ≤ daysInMonth y m then
      some (86400 * daysFromCivil y m d)
    else none
  else none

/-- What can abort the catalog build: the date token of a filename is missing
(`split("_")[3]` raises `IndexError`) or unparseable (`strptime` raises
`ValueError`), the file cannot be opened (`rasterio.open` raises), or the
effective band list is empty (`self.bands[0]` raises `IndexError`). -/
inductive ScanError where
  | missingToken (name : String)
  | badDate (token : String)
  | unreadable (path : String)
  | emptyBandList
  deriving DecidableEq, Repr

/-- Process one globbed file exactly as the loop body of `Landsat.__init__`
does: parse the fourth underscore-delimited token of the basename as a
`YYYYMMDD` date, then open the file for its spatial bounds, and form the
R-tree coordinates `(minx, maxx, miny, maxy, timestamp, timestamp)`. -/
def scanFile (f : RasterFile) : Except ScanError TileRecord :=
  match (splitOnChar '_' f.name.data).get? 3 with
  | none => .error (.missingToken f.name)
  | some tok =>
    match parseYYYYMMDD tok with
    | none => .error (.badDate (String.mk tok))
    | some t =>
      if f.openable then
        .ok ⟨⟨f.bminx, f.bmaxx, f.bminy, f.bmaxy, t, t⟩, f.path⟩
      else .error (.unreadable f.path)

/-- Build the index from the globbed files in order.  The Python loop has no
exception handling, so the first failing file aborts the whole construction. -/
def buildIndex : List RasterFile → Except ScanError (List TileRecord)
  | [] => .ok []
  | f :: fs =>
    match scanFile f with
    | .error e => .error e
    | .ok r =>
      match buildIndex fs with
      | .error e => .error e
      | .ok rs => .ok (r :: rs)

/-- Did `scanFile` succeed on this file? -/
def scanOk (f : RasterFile) : Bool :=
  match scanFile f with
  | .ok _ => true
  | .error _ => false

/-- A query result sample: the `"image"` entry, a 2-D pixel grid. -/
abbrev Grid := List (List Int)

/-- The dataset object produced by `Landsat.__init__`: the stored constructor
arguments and the populated spatial-temporal index. -/
structure Dataset where
  root : String
  bands : List String
  transforms : Option (Grid → Grid)
  index : List TileRecord

/-- `Landsat.__init__`: store `root`, the effective band list (`bands` if
non-empty, else the subclass's `band_names`) and `transforms`, then glob
`root/base_folder/**_{bands[0]}.TIF` and index every matched file. -/
def landsatInit (fs : List RasterFile) (root : String) (base_folder : String)
    (band_names : List String) (bands : List String)
    (transforms : Option (Grid → Grid)) : Except ScanError Dataset :=
  let bands' := if bands.isEmpty then band_names else bands
  match bands' with
  | [] => .error .emptyBandList
  | b0 :: _ =>
    match buildIndex (globFiles fs root base_folder b0) with
    | .error e => .error e
    | .ok recs => .ok ⟨root, bands', transforms, recs⟩

/-- The pixel window handed to the raster read: `rasterio.windows.Window`'s
`(col_off, row_off, width, height)`. -/
structure PixelWindow where
  col_off : Int
  row_off : Int
  width : Int
  height : Int
  deriving DecidableEq, Repr

/-- The window built in `Landsat.__getitem__`:
`Window(query.minx, query.miny, query.maxx - query.minx, query.maxy - query.miny)` —
the query coordinates are used directly, with no geotransform applied. -/
def windowOf (q : BoundingBox) : PixelWindow :=
  ⟨q.minx, q.miny, q.maxx - q.minx, q.maxy - q.miny⟩

/-- The elements of a list whose index `i` satisfies `off ≤ i < off + len`,
clipped to the list: one axis of a windowed raster read. -/
def sliceW (off len : Int) (l : List α) : List α :=
  (l.take (min (off + len) (l.length : Int)).toNat).drop (max off 0).toNat

/-- Read a pixel window from one band's grid: clip the window to the grid and
return the covered rows and columns. -/
def windowRead (g : Grid) (w : PixelWindow) : Grid :=
  (sliceW w.row_off w.height g).map (fun row => sliceW w.col_off w.width row)

/-- Modelled from the spec: `rasterio`'s `DatasetReader.read(i, window=w)` is
an external collaborator; band indexes are 1-based, so `read(1)` reads the
file's first band; a band index with no band fails. -/
def rasterRead (f : RasterFile) (i : Nat) (w : PixelWindow) : Option Grid :=
  (f.bands.get? (i - 1)).map (fun g => windowRead g w)

/-- Reduction of an integer sample into signed 32-bit range, as performed by
`image.astype(np.int32)`: wrap-around modulo `2^32`. -/
def toInt32 (x : Int) : Int :=
  (x + 2 ^ 31) % 2 ^ 32 - 2 ^ 31

/-- Cast a whole pixel grid to signed 32-bit integers. -/
def castGrid (g : Grid) : Grid :=
  g.map (fun row => row.map toInt32)

/-- Open a file by path at query time: the first file of the modelled tree
with that path, provided it can still be opened (`rasterio.open` raises
otherwise). -/
def openPath (fs : List RasterFile) (p : String) : Option RasterFile :=
  match fs.find? (fun f => f.path = p) with
  | none => none
  | some f => if f.openable then some f else none

/-- How a query can fail: the `IndexError` raised when the query does not
intersect the dataset-level bounds (carrying both the query and the bounds, as
the error message does), the `StopIteration` escaping from `next(hits)` on an
empty hit sequence, and a read failure on the selected file. -/
inductive QueryError where
  | outOfRange (query : BoundingBox) (bounds : BoundingBox)
  | stopIteration
  | readFailure (path : String)
  deriving DecidableEq, Repr

/-- `Landsat.__getitem__`: reject a query that does not intersect the
dataset-level bounds; otherwise build the pixel window from the query
coordinates, intersect the index, take the first hit, open its file, read band
1 through the window and cast to int32. -/
def getitem (fs : List RasterFile) (ds : Dataset) (query : BoundingBox) :
    Except QueryError Grid :=
  if query.intersects (datasetBounds ds.index) then
    let w := windowOf query
    match intersectIndex ds.index query with
    | [] => .error .stopIteration
    | r :: _ =>
      match openPath fs r.path with
      | none => .error (.readFailure r.path)
      | some f =>
        match rasterRead f 1 w with
        | none => .error (.readFailure r.path)
        | some img => .ok (castGrid img)
  else .error (.outOfRange query (datasetBounds ds.index))

/-- Did a fallible computation succeed? -/
def isOkB (x : Except ε α) : Bool :=
  match x with
  | .ok _ => true
  | .error _ => false

/-- The number of catalog records a build produced, when it succeeded. -/
def okLength (x : Except ScanError (List TileRecord)) : Option Nat :=
  match x with
  | .ok l => some l.length
  | .error _ => none

/-! Concrete fixtures used to instantiate the theorems below. -/

/-- Fixture: a well-formed band-1 file with spatial bounds `(0, 0, 100, 100)`
acquired on 2021-01-01 (Unix time 1609459200). -/
def goodFile : RasterFile :=
  ⟨"data/landsat_8_9", "A_B_C_20210101_B1.TIF", 0, 0, 100, 100,
   [[[1, 2, 3, 4], [5, 6, 7, 8], [9, 10, 11, 12], [13, 14, 15, 16]]], true⟩

/-- Fixture: a file whose fourth filename token is not a date. -/
def badFile : RasterFile :=
  ⟨"data/landsat_8_9", "A_B_C_XXXXXXXX_B1.TIF", 0, 0, 50, 50, [[[1]]], true⟩

/-- Fixture: a directory holding the malformed file before the valid one. -/
def mixedFS : List RasterFile := [badFile, goodFile]

/-- Fixture: the record the scan produces for `goodFile`. -/
def goodRec : TileRecord :=
  ⟨⟨0, 100, 0, 100, 1609459200, 1609459200⟩, "data/landsat_8_9/A_B_C_20210101_B1.TIF"⟩

/-- Fixture: a tile record spatially nested inside `goodRec` at the same
time. -/
def innerRec : TileRecord :=
  ⟨⟨10, 50, 10, 50, 1609459200, 1609459200⟩, "data/landsat_8_9/D_E_F_20210101_B1.TIF"⟩

/-- Fixture: the dataset built from `goodFile` with the default band list. -/
def demoDS : Dataset := ⟨"data", ["B1", "B2"], none, [goodRec]⟩

/-- Fixture: as `demoDS` but with an explicit one-band list. -/
def demoDS1 : Dataset := ⟨"data", ["B1"], none, [goodRec]⟩

/-- Fixture: as `demoDS` but with a (discarded) transform stored. -/
def demoDS2 : Dataset := ⟨"data", ["B1", "B2"], some (fun _ => []), [goodRec]⟩

/-- Fixture: a dataset whose index holds `goodRec` and the nested
`innerRec`. -/
def twoTileDS : Dataset := ⟨"data", ["B1", "B2"], none, [goodRec, innerRec]⟩

/-- Fixture: two spatially disjoint tile records (x-ranges `[0, 10]` and
`[20, 30]`). -/
def recA : TileRecord := ⟨⟨0, 10, 0, 10, 100, 100⟩, "data/landsat_8_9/pA_B1.TIF"⟩

/-- Fixture: see `recA`. -/
def recB : TileRecord := ⟨⟨20, 30, 0, 10, 100, 100⟩, "data/landsat_8_9/pB_B1.TIF"⟩

/-- Fixture: a dataset over the two disjoint tiles, whose union bounds cover
the gap between them. -/
def gapDS : Dataset := ⟨"data", ["B1"], none, [recA, recB]⟩

/-- Fixture: a query box lying in the spatial gap of `gapDS`. -/
def gapQ : BoundingBox := ⟨12, 15, 0, 10, 100, 100⟩

theorem starMatch_star (p s : List Char) :
    starMatch ('*' :: p) s = s.tails.any (fun b => starMatch p b) := by
  simp [starMatch]

theorem starMatch_literal (p s : List Char) (h : '*' ∉ p) :
    starMatch p s = true ↔ s = p := by
  induction p generalizing s with
  | nil => cases s <;> simp [starMatch]
  | cons c p ih =>
    have hc : c ≠ '*' := fun hco => h (hco ▸ List.mem_cons_self c p)
    have hp : '*' ∉ p := fun hm => h (List.mem_cons_of_mem _ hm)
    cases s with
    | nil => simp [starMatch, hc]
    | cons d s' =>
      have ihs := ih s' hp
      simp only [starMatch, if_neg hc, Bool.and_eq_true, decide_eq_true_eq, ihs,
        List.cons.injEq]
      exact ⟨fun ⟨h1, h2⟩ => ⟨h1.symm, h2⟩, fun ⟨h1, h2⟩ => ⟨h1.symm, h2⟩⟩

theorem starMatch_star_iff (p s : List Char) :
    starMatch ('*' :: p) s = true ↔ ∃ b, b <:+ s ∧ starMatch p b = true := by
  rw [starMatch_star]
  simp [List.any_eq_true, List.mem_tails]

theorem starMatch_double_star (lit s : List Char) (h : '*' ∉ lit) :
    starMatch ('*' :: '*' :: lit) s = true ↔ lit <:+ s := by
  rw [starMatch_star_iff]
  constructor
  · rintro ⟨b, hb, hm⟩
    rw [starMatch_star_iff] at hm
    obtain ⟨c, hc, hm⟩ := hm
    rw [starMatch_literal lit c h] at hm
    exact hm ▸ hc.trans hb
  · intro hs
    refine ⟨s, List.suffix_refl s, ?_⟩
    rw [starMatch_star_iff]
    exact ⟨lit, hs, (starMatch_literal lit lit h).mpr rfl⟩

theorem data_of_suffix_pattern (band : String) :
    ("**_" ++ band ++ ".TIF").data = '*' :: '*' :: ("_" ++ band ++ ".TIF").data := by
  simp only [String.data_append]
  rfl

theorem star_not_mem_suffix (band : String) (hb : '*' ∉ band.data) :
    '*' ∉ ("_" ++ band ++ ".TIF").data := by
  simp only [String.data_append]
  intro hmem
  rcases List.mem_append.mp hmem with hmem | hmem
  · rcases List.mem_append.mp hmem with hmem | hmem
    · simp at hmem
    · exact hb hmem
  · simp at hmem

theorem nameMatches_suffix (band name : String) (hb : '*' ∉ band.data)
    (hm : nameMatches band name = true) :
    ∃ pre : String, name = pre ++ ("_" ++ band ++ ".TIF") := by
  have h1 : starMatch ("**_" ++ band ++ ".TIF").data name.data = true := by
    simp only [nameMatches, Bool.and_eq_true] at hm
    exact hm.1
  rw [data_of_suffix_pattern] at h1
  rw [starMatch_double_star _ _ (star_not_mem_suffix band hb)] at h1
  obtain ⟨a, ha⟩ := h1
  refine ⟨String.mk a, String.ext ?_⟩
  rw [String.data_append]
  exact ha.symm

theorem mem_globFiles {fs : List RasterFile} {root bf band : String} {f : RasterFile} :
    f ∈ globFiles fs root bf band ↔
      f ∈ fs ∧ f.dir = root ++ "/" ++ bf ∧ nameMatches band f.name = true := by
  simp [globFiles, List.mem_filter, Bool.and_eq_true, decide_eq_true_eq, and_assoc]

theorem scanFile_ok {f : RasterFile} {r : TileRecord} (h : scanFile f = .ok r) :
    ∃ tok t, (splitOnChar '_' f.name.data).get? 3 = some tok ∧
      parseYYYYMMDD tok = some t ∧ f.openable = true ∧
      r = ⟨⟨f.bminx, f.bmaxx, f.bminy, f.bmaxy, t, t⟩, f.path⟩ := by
  unfold scanFile at h
  split at h
  · cases h
  · rename_i tok h1
    split at h
    · cases h
    · rename_i t h2
      split at h
      · rename_i h3
        injection h with h
        exact ⟨tok, t, h1, h2, h3, h.symm⟩
      · cases h

theorem buildIndex_mem {files : List RasterFile} {recs : List TileRecord}
    (h : buildIndex files = .ok recs) {r : TileRecord} (hr : r ∈ recs) :
    ∃ f, f ∈ files ∧ scanFile f = .ok r := by
  induction files generalizing recs with
  | nil =>
    unfold buildIndex at h
    injection h with h
    subst h
    cases hr
  | cons g gs ih =>
    unfold buildIndex at h
    cases h1 : scanFile g with
    | error e => rw [h1] at h; cases h
    | ok r0 =>
      rw [h1] at h
      cases h2 : buildIndex gs with
      | error e => rw [h2] at h; cases h
      | ok rs =>
        rw [h2] at h
        injection h with h
        subst h
        cases hr with
        | head => exact ⟨g, List.mem_cons_self g gs, h1⟩
        | tail _ hr' =>
          obtain ⟨f, hf, hsf⟩ := ih h2 hr'
          exact ⟨f, List.mem_cons_of_mem g hf, hsf⟩

theorem intersects_iff (a b : BoundingBox) :
    a.intersects b = true ↔
      ((a.minx ≤ b.maxx ∧ b.minx ≤ a.maxx) ∧ (a.miny ≤ b.maxy ∧ b.miny ≤ a.maxy) ∧
       (a.mint ≤ b.maxt ∧ b.mint ≤ a.maxt)) := by
  simp only [BoundingBox.intersects, Bool.and_eq_true, decide_eq_true_eq, and_assoc]

/-- C1: for every query accepted by `__getitem__` that produces a hit whose
file opens, the pixel window handed to the raster read is computed directly
from the query coordinates, with no geotransform: `col_off = query.minx`,
`row_off = query.miny`, `width = query.maxx - query.minx`,
`height = query.maxy - query.miny`. -/
theorem c1_window_direct_from_query
    (fs : List RasterFile) (ds : Dataset) (q : BoundingBox) (r : TileRecord)
    (tl : List TileRecord) (f : RasterFile)
    (h1 : q.intersects (datasetBounds ds.index) = true)
    (h2 : intersectIndex ds.index q = r :: tl)
    (h3 : openPath fs r.path = some f) :
    getitem fs ds q =
      match rasterRead f 1 ⟨q.minx, q.miny, q.maxx - q.minx, q.maxy - q.miny⟩ with
      | none => .error (.readFailure r.path)
      | some img => .ok (castGrid img) := by
  simp only [getitem, windowOf, h1, h2, h3, if_true]

/-- Witness for C1 at the spec scenario: a tile with bounds
`(0, 100, 0, 100, T, T)` and the query `(10, 30, 20, 40, T, T)` produce the
pixel window `col_off = 10`, `row_off = 20`, `width = 20`, `height = 20`. -/
theorem c1_window_witness :
    getitem [goodFile] demoDS ⟨10, 30, 20, 40, 1609459200, 1609459200⟩ =
      match rasterRead goodFile 1 ⟨10, 20, 20, 20⟩ with
      | none => .error (.readFailure goodRec.path)
      | some img => .ok (castGrid img) :=
  c1_window_direct_from_query [goodFile] demoDS ⟨10, 30, 20, 40, 1609459200, 1609459200⟩
    goodRec [] goodFile (by decide) (by decide) (by decide)

/-- C2: `__getitem__` raises the `IndexError` exactly when the query box does
not intersect the dataset-level bounds, and the raised error carries both the
offending query and the dataset's bounds; when the query does intersect the
bounds this error is never raised. -/
theorem c2_out_of_range_iff (fs : List RasterFile) (ds : Dataset) (q : BoundingBox) :
    (q.intersects (datasetBounds ds.index) = false →
      getitem fs ds q = .error (.outOfRange q (datasetBounds ds.index))) ∧
    (q.intersects (datasetBounds ds.index) = true →
      ∀ q' b', getitem fs ds q ≠ .error (.outOfRange q' b')) := by
  constructor
  · intro h
    simp [getitem, h]
  · intro h q' b' hc
    simp only [getitem, h, if_true] at hc
    split at hc
    · simp at hc
    · split at hc
      · simp at hc
      · split at hc
        · simp at hc
        · simp at hc

/-- Witness for C2: a query box beyond the only tile is rejected with the
`IndexError` carrying the query and the dataset bounds, and an in-bounds query
is never rejected with it. -/
theorem c2_out_of_range_witness :
    getitem [goodFile] demoDS ⟨200, 300, 20, 40, 1609459200, 1609459200⟩ =
      .error (.outOfRange ⟨200, 300, 20, 40, 1609459200, 1609459200⟩
        (datasetBounds demoDS.index)) ∧
    getitem [goodFile] demoDS ⟨10, 30, 20, 40, 1609459200, 1609459200⟩ ≠
      .error (.outOfRange ⟨10, 30, 20, 40, 1609459200, 1609459200⟩
        (datasetBounds demoDS.index)) :=
  ⟨(c2_out_of_range_iff [goodFile] demoDS
      ⟨200, 300, 20, 40, 1609459200, 1609459200⟩).1 (by decide),
   (c2_out_of_range_iff [goodFile] demoDS
      ⟨10, 30, 20, 40, 1609459200, 1609459200⟩).2 (by decide) _ _⟩

/-- C5: the sample returned by `__getitem__` depends only on the first hit of
the index traversal: two datasets with the same dataset-level bounds whose hit
sequences for a query share the same first element (whatever tiles follow)
return the same result — no merging or mosaicking of further hits. -/
theorem c5_first_hit_only (fs : List RasterFile) (ds₁ ds₂ : Dataset) (q : BoundingBox)
    (hb : datasetBounds ds₁.index = datasetBounds ds₂.index)
    (hh : (intersectIndex ds₁.index q).head? = (intersectIndex ds₂.index q).head?) :
    getitem fs ds₁ q = getitem fs ds₂ q := by
  unfold getitem
  rw [hb]
  cases h1 : intersectIndex ds₁.index q with
  | nil =>
    cases h2 : intersectIndex ds₂.index q with
    | nil => rfl
    | cons r' tl' => rw [h1, h2] at hh; simp at hh
  | cons r tl =>
    cases h2 : intersectIndex ds₂.index q with
    | nil => rw [h1, h2] at hh; simp at hh
    | cons r' tl' =>
      rw [h1, h2] at hh
      simp only [List.head?_cons, Option.some.injEq] at hh
      rw [hh]

/-- Witness for C5: adding a second, spatially nested tile to the index leaves
every result unchanged as long as the first hit is the same tile. -/
theorem c5_first_hit_witness :
    getitem [goodFile] demoDS ⟨20, 30, 20, 30, 1609459200, 1609459200⟩ =
      getitem [goodFile] twoTileDS ⟨20, 30, 20, 30, 1609459200, 1609459200⟩ :=
  c5_first_hit_only [goodFile] demoDS twoTileDS ⟨20, 30, 20, 30, 1609459200, 1609459200⟩
    (by decide) (by decide)

/-- C8: a query that intersects the dataset-level (union) bounds but hits no
individual tile — possible when disjoint tiles leave gaps inside the union —
makes `__getitem__` raise `StopIteration` from `next()` on the empty hit
sequence, not the documented `IndexError`. -/
theorem c8_gap_raises_stop_iteration (fs : List RasterFile) (ds : Dataset) (q : BoundingBox)
    (h1 : q.intersects (datasetBounds ds.index) = true)
    (h2 : intersectIndex ds.index q = []) :
    getitem fs ds q = .error .stopIteration := by
  simp [getitem, h1, h2]

/-- Witness for C8: two disjoint tiles with x-ranges `[0, 10]` and `[20, 30]`
and a query at `x ∈ [12, 15]` inside the union's gap yield `StopIteration`. -/
theorem c8_gap_witness : getitem [] gapDS gapQ = .error .stopIteration :=
  c8_gap_raises_stop_iteration [] gapDS gapQ (by decide) (by decide)

/-- Counterexample for C3: with the malformed file listed before the valid
one, the catalog build aborts with the date-parse error instead of skipping
the file and warning — no catalog of the valid files is ever produced. -/
theorem c3_counterexample :
    buildIndex (globFiles mixedFS "data" "landsat_8_9" "B1") =
      .error (.badDate "XXXXXXXX") := by
  decide

/-- C3 (amended): a file with a malformed or missing date token, or that
cannot be opened, aborts the whole catalog build with that file's error — it
is not skipped and no warning is collected — while a directory in which every
matched file scans cleanly builds a catalog with exactly one record per
file. -/
theorem c3_scan_aborts (files : List RasterFile) :
    ((∀ f ∈ files, scanOk f = true) → okLength (buildIndex files) = some files.length) ∧
    (∀ f ∈ files, scanOk f = false → isOkB (buildIndex files) = false) := by
  induction files with
  | nil =>
    refine ⟨fun _ => rfl, fun f hf => ?_⟩
    cases hf
  | cons g gs ih =>
    constructor
    · intro hall
      have hg := hall g (List.mem_cons_self g gs)
      cases hsf : scanFile g with
      | error e => simp [scanOk, hsf] at hg
      | ok r =>
        have h2 := ih.1 (fun f hf => hall f (List.mem_cons_of_mem g hf))
        cases hbi : buildIndex gs with
        | error e => simp [okLength, hbi] at h2
        | ok rs =>
          simp only [okLength, hbi, Option.some.injEq] at h2
          simp [buildIndex, hsf, hbi, okLength, h2]
    · intro f hf hbad
      cases hf with
      | head =>
        cases hsf : scanFile g with
        | ok r => simp [scanOk, hsf] at hbad
        | error e => simp [isOkB, buildIndex, hsf]
      | tail _ hf' =>
        have h2 := ih.2 f hf' hbad
        cases hbi : buildIndex gs with
        | ok rs => simp [isOkB, hbi] at h2
        | error e =>
          cases hsf : scanFile g with
          | error e' => simp [isOkB, buildIndex, hsf]
          | ok r => simp [isOkB, buildIndex, hsf, hbi]

/-- Witness for C3 (amended): the clean singleton directory builds a
one-record catalog; the directory with the malformed file aborts. -/
theorem c3_scan_aborts_witness :
    okLength (buildIndex [goodFile]) = some 1 ∧ isOkB (buildIndex mixedFS) = false :=
  ⟨(c3_scan_aborts [goodFile]).1 (by decide),
   (c3_scan_aborts mixedFS).2 badFile (by decide) (by decide)⟩

/-- C4: every record a successful catalog build inserts has bbox
`(minx, maxx, miny, maxy, t, t)`, reordering the raster source's
`(minx, miny, maxx, maxy)` bounds, where `t` parses the fourth
underscore-delimited token (0-based index 3) of the base filename in
`YYYYMMDD` format; in particular every record satisfies `mint = maxt`. -/
theorem c4_record_shape (files : List RasterFile) (recs : List TileRecord)
    (h : buildIndex files = .ok recs) (r : TileRecord) (hr : r ∈ recs) :
    ∃ f, f ∈ files ∧ ∃ tok t,
      (splitOnChar '_' f.name.data).get? 3 = some tok ∧
      parseYYYYMMDD tok = some t ∧
      r = ⟨⟨f.bminx, f.bmaxx, f.bminy, f.bmaxy, t, t⟩, f.path⟩ ∧
      r.coords.mint = r.coords.maxt := by
  obtain ⟨f, hf, hsf⟩ := buildIndex_mem h hr
  obtain ⟨tok, t, h1, h2, h3, h4⟩ := scanFile_ok hsf
  exact ⟨f, hf, tok, t, h1, h2, h4, by rw [h4]⟩

/-- Witness for C4: the record built from the singleton directory is a
point-in-time record. -/
theorem c4_record_witness : goodRec.coords.mint = goodRec.coords.maxt := by
  obtain ⟨f, hf, tok, t, h1, h2, h3, h4⟩ :=
    c4_record_shape [goodFile] [goodRec] (by decide) goodRec (by decide)
  exact h4

/-- C6: every successful query returns the pixel window of the file's first
band — `read` is called with band index 1, which is 1-based — cast
elementwise to signed 32-bit integers. -/
theorem c6_band1_int32 (fs : List RasterFile) (ds : Dataset) (q : BoundingBox)
    (img : Grid) (h : getitem fs ds q = .ok img) :
    ∃ r f g, (intersectIndex ds.index q).head? = some r ∧
      openPath fs r.path = some f ∧
      f.bands.get? 0 = some g ∧
      rasterRead f 1 (windowOf q) = some (windowRead g (windowOf q)) ∧
      img = castGrid (windowRead g (windowOf q)) := by
  simp only [getitem] at h
  split at h
  · split at h
    · simp at h
    · rename_i r tl h1
      split at h
      · simp at h
      · rename_i f h2
        split at h
        · simp at h
        · rename_i img' h3
          injection h with h
          simp only [rasterRead, Nat.sub_self] at h3
          cases hg : f.bands.get? 0 with
          | none => rw [hg] at h3; simp at h3
          | some g =>
            rw [hg] at h3
            simp only [Option.map_some', Option.some.injEq] at h3
            refine ⟨r, f, g, ?_, h2, hg, ?_, ?_⟩
            · rw [h1]
              rfl
            · simp only [rasterRead, Nat.sub_self, hg, Option.map_some']
            · rw [← h, h3]
  · simp at h

/-- Witness for C6: on the 4×4 demo band, the query `(1, 3, 1, 3, T, T)`
returns the int32-cast window rows 1–2 and columns 1–2. -/
theorem c6_band1_witness :
    ([[6, 7], [10, 11]] : Grid) =
      castGrid (windowRead [[1, 2, 3, 4], [5, 6, 7, 8], [9, 10, 11, 12], [13, 14, 15, 16]]
        (windowOf ⟨1, 3, 1, 3, 1609459200, 1609459200⟩)) := by
  obtain ⟨r, f, g, h1, h2, hg, hread, himg⟩ :=
    c6_band1_int32 [goodFile] demoDS ⟨1, 3, 1, 3, 1609459200, 1609459200⟩
      [[6, 7], [10, 11]] (by decide)
  have hr : goodRec = r :=
    Option.some.inj ((by decide : (intersectIndex demoDS.index
      ⟨1, 3, 1, 3, 1609459200, 1609459200⟩).head? = some goodRec).symm.trans h1)
  rw [← hr] at h2
  have hf : goodFile = f :=
    Option.some.inj ((by decide : openPath [goodFile] goodRec.path = some goodFile).symm.trans h2)
  rw [← hf] at hg
  have hgb : ([[1, 2, 3, 4], [5, 6, 7, 8], [9, 10, 11, 12], [13, 14, 15, 16]] :
      List (List Int)) = g :=
    Option.some.inj ((by decide : goodFile.bands.get? 0 =
      some [[1, 2, 3, 4], [5, 6, 7, 8], [9, 10, 11, 12], [13, 14, 15, 16]]).symm.trans hg)
  rw [himg, ← hgb]

/-- C7: index intersection is exactly closed-interval overlap on all three
axes: an inserted record overlapping the query box on every axis is among the
hits (in particular a record with a valid bbox is a hit for its own bbox), a
record failing overlap on at least one axis is never a hit, and duplicates are
not suppressed — multiplicity among the hits equals multiplicity in the
index. -/
theorem c7_index_invariants (l : List TileRecord) (q : BoundingBox) (r : TileRecord) :
    (r ∈ l → r.coords.intersects q = true → r ∈ intersectIndex l q) ∧
    (¬ ((r.coords.minx ≤ q.maxx ∧ q.minx ≤ r.coords.maxx) ∧
        (r.coords.miny ≤ q.maxy ∧ q.miny ≤ r.coords.maxy) ∧
        (r.coords.mint ≤ q.maxt ∧ q.mint ≤ r.coords.maxt)) →
      r ∉ intersectIndex l q) ∧
    (r.coords.valid = true → r ∈ l → r ∈ intersectIndex l r.coords) ∧
    (r.coords.intersects q = true → (intersectIndex l q).count r = l.count r) := by
  refine ⟨?_, ?_, ?_, ?_⟩
  · intro hmem hint
    exact List.mem_filter.mpr ⟨hmem, hint⟩
  · intro hax hmem
    exact hax ((intersects_iff r.coords q).mp (List.mem_filter.mp hmem).2)
  · intro hv hmem
    refine List.mem_filter.mpr ⟨hmem, ?_⟩
    rw [intersects_iff]
    simp only [BoundingBox.valid, Bool.and_eq_true, decide_eq_true_eq] at hv
    omega
  · intro hint
    exact List.count_filter hint

/-- Witness for C7: the valid record `recA` is a hit for its own bbox, the
disjoint record `recB` is not among the hits for `recA`'s bbox, and a record
inserted twice appears twice among the hits. -/
theorem c7_index_witness :
    recA ∈ intersectIndex [recA, recB] recA.coords ∧
    recB ∉ intersectIndex [recA, recB] recA.coords ∧
    (intersectIndex [recA, recA] recA.coords).count recA = 2 := by
  refine ⟨?_, ?_, ?_⟩
  · exact (c7_index_invariants [recA, recB] recA.coords recA).2.2.1 (by decide) (by decide)
  · exact (c7_index_invariants [recA, recB] recA.coords recB).2.1 (by decide)
  · rw [(c7_index_invariants [recA, recA] recA.coords recA).2.2.2 (by decide)]
    decide

theorem landsatInit_ok {fs : List RasterFile} {root bf : String}
    {bn bands : List String} {t : Option (Grid → Grid)} {ds : Dataset}
    (h : landsatInit fs root bf bn bands t = .ok ds) :
    ∃ b0 bs recs, (if bands.isEmpty then bn else bands) = b0 :: bs ∧
      buildIndex (globFiles fs root bf b0) = .ok recs ∧
      ds = ⟨root, b0 :: bs, t, recs⟩ := by
  simp only [landsatInit] at h
  split at h
  · cases h
  · rename_i b0 bs heq
    split at h
    · cases h
    · rename_i recs hb
      injection h with h
      refine ⟨b0, bs, recs, heq, hb, ?_⟩
      rw [← heq]
      exact h.symm

/-- C9: the `transforms` callable is stored on the dataset object but never
applied on the query path: two constructions identical except for their
`transforms` argument store their respective arguments and return identical
samples from `__getitem__` for every query. -/
theorem c9_transforms_unused (fs : List RasterFile) (root bf : String)
    (bn bands : List String) (t₁ t₂ : Option (Grid → Grid)) (q : BoundingBox)
    (ds₁ ds₂ : Dataset)
    (h₁ : landsatInit fs root bf bn bands t₁ = .ok ds₁)
    (h₂ : landsatInit fs root bf bn bands t₂ = .ok ds₂) :
    ds₁.transforms = t₁ ∧ ds₂.transforms = t₂ ∧ getitem fs ds₁ q = getitem fs ds₂ q := by
  obtain ⟨b0, bs, recs, he, hb, hds₁⟩ := landsatInit_ok h₁
  obtain ⟨b0', bs', recs', he', hb', hds₂⟩ := landsatInit_ok h₂
  have hbb : b0 :: bs = b0' :: bs' := he.symm.trans he'
  injection hbb with hb0 hbs
  subst hb0 hbs
  rw [hb] at hb'
  injection hb' with hrecs
  subst hrecs
  subst hds₁ hds₂
  exact ⟨rfl, rfl, rfl⟩

/-- Witness for C9: the same directory indexed with `transforms = None` and
with a discarding transform returns the same sample. -/
theorem c9_transforms_witness :
    getitem [goodFile] demoDS ⟨1, 3, 1, 3, 1609459200, 1609459200⟩ =
      getitem [goodFile] demoDS2 ⟨1, 3, 1, 3, 1609459200, 1609459200⟩ :=
  (c9_transforms_unused [goodFile] "data" "landsat_8_9" ["B1", "B2"] []
    none (some (fun _ => [])) ⟨1, 3, 1, 3, 1609459200, 1609459200⟩ demoDS demoDS2
    rfl rfl).2.2

/-- C10: a constructor call with an empty band sequence falls back to the
subclass's full `band_names`; the glob that populates the index only matches
files directly under `root/base_folder` whose basename ends in
`_<bands[0]>.TIF`, so the indexed set is determined by the first element of
the effective band list. -/
theorem c10_glob_band_head (fs : List RasterFile) (root bf : String)
    (bn bands : List String) (t : Option (Grid → Grid)) (ds : Dataset)
    (h : landsatInit fs root bf bn bands t = .ok ds) :
    ∃ b0 bs, (if bands.isEmpty then bn else bands) = b0 :: bs ∧
      ds.bands = b0 :: bs ∧
      (bands = [] → ds.bands = bn) ∧
      (∀ r ∈ ds.index, ∃ f, f ∈ fs ∧ f.dir = root ++ "/" ++ bf ∧ r.path = f.path ∧
        ('*' ∉ b0.data → ∃ pre, f.name = pre ++ ("_" ++ b0 ++ ".TIF"))) ∧
      (∀ bands₂ t₂ ds₂, (if bands₂.isEmpty then bn else bands₂).head? = some b0 →
        landsatInit fs root bf bn bands₂ t₂ = .ok ds₂ → ds₂.index = ds.index) := by
  obtain ⟨b0, bs, recs, he, hb, hds⟩ := landsatInit_ok h
  subst hds
  refine ⟨b0, bs, he, rfl, ?_, ?_, ?_⟩
  · intro hbe
    subst hbe
    have he' : bn = b0 :: bs := he
    exact he'.symm
  · intro r hr
    obtain ⟨f, hf, hsf⟩ := buildIndex_mem hb hr
    obtain ⟨hfs, hdir, hnm⟩ := mem_globFiles.mp hf
    obtain ⟨tok, tt, _, _, _, hrec⟩ := scanFile_ok hsf
    refine ⟨f, hfs, hdir, ?_, ?_⟩
    · rw [hrec]
    · intro hstar
      exact nameMatches_suffix b0 f.name hstar hnm
  · intro bands₂ t₂ ds₂ hh h₂
    obtain ⟨b0', bs', recs', he', hb', hds₂⟩ := landsatInit_ok h₂
    rw [he'] at hh
    simp only [List.head?_cons, Option.some.injEq] at hh
    subst hh
    rw [hb] at hb'
    injection hb' with hrecs
    subst hds₂
    exact hrecs.symm

/-- Witness for C10: the empty band sequence falls back to the full band list
`["B1", "B2"]`, and indexing with the explicit list `["B1"]` (same first
element) produces the same index. -/
theorem c10_glob_band_head_witness :
    demoDS.bands = ["B1", "B2"] ∧ demoDS1.index = demoDS.index := by
  obtain ⟨b0, bs, he, hbands, hdef, hrec, hdet⟩ :=
    c10_glob_band_head [goodFile] "data" "landsat_8_9" ["B1", "B2"] [] none demoDS rfl
  have he' : ["B1", "B2"] = b0 :: bs := he
  injection he' with h1 h2
  subst h1 h2
  exact ⟨hbands, hdet ["B1"] none demoDS1 (by decide) rfl⟩

end Landsat
